import Mathlib

set_option maxRecDepth 40000

/-!
Verification development for the SeraAI newsletter pipeline service
(`src/main.py`).  Strings are embedded as `List Char`; Python library
calls that reach outside the process (HTTP, the generative model,
MongoDB, the Brevo API, `json.loads`, PyPDF2, BeautifulSoup) are
parameters of the embedded functions.  All in-repository string and
date logic is translated directly from the source.
-/

/-- The character `{` (written via its code point to keep it out of string
literals). -/
def lbraceC : Char := Char.ofNat 123

/-- The character `}`. -/
def rbraceC : Char := Char.ofNat 125

/-- Characters stripped by Python `str.strip()` (ASCII whitespace). -/
def isPySpace (c : Char) : Bool :=
  c = ' ' || c = '\t' || c = '\n' || c = '\r' || c = Char.ofNat 11 || c = Char.ofNat 12

/-- Python `str.strip()`: drop leading and trailing whitespace. -/
def pyStrip (s : List Char) : List Char :=
  ((s.dropWhile isPySpace).reverse.dropWhile isPySpace).reverse

/-- Python `str.startswith(p)`. -/
def startsWithL (p s : List Char) : Bool := p.isPrefixOf s

/-- Python `str.endswith(p)`. -/
def endsWithL (p s : List Char) : Bool := p.reverse.isPrefixOf s.reverse

/-- Python `str.find(c)` for a single character, as an `Option` (Python
returns `-1` for "not found", modelled as `none`). -/
def pyFindChar (c : Char) : List Char → Option Nat
  | [] => none
  | d :: s => if d = c then some 0 else (pyFindChar c s).map (· + 1)

/-- Python `str.rfind(c)` for a single character (index of the last
occurrence, `none` when absent). -/
def pyRfindChar (c : Char) (s : List Char) : Option Nat :=
  match pyFindChar c s.reverse with
  | some k => some (s.length - 1 - k)
  | none => none

/-- Python slice `s[a:b]` for `0 ≤ a`, `0 ≤ b`. -/
def pySlice (s : List Char) (a b : Nat) : List Char := (s.take b).drop a

/-- First occurrence of `pat` in `s`: `some (before, after)` such that
`s = before ++ pat ++ after` and `before` is shortest, else `none`.
This models Python's `pat in s` test and locates where `str.replace`
makes its first replacement. -/
def splitFirst (pat : List Char) : List Char → Option (List Char × List Char)
  | [] => if pat.isPrefixOf ([] : List Char) then some ([], []) else none
  | c :: s =>
    if pat.isPrefixOf (c :: s) then some ([], List.drop pat.length (c :: s))
    else
      match splitFirst pat s with
      | some (a, b) => some (c :: a, b)
      | none => none

/-- Python `pat in s` (substring containment). -/
def occursB (pat s : List Char) : Bool := (splitFirst pat s).isSome

/-- Fuelled worker for Python `str.replace`: replace every non-overlapping
occurrence of `pat` left to right, never rescanning replacement text.
The fuel only makes the recursion structural; `pyReplace` supplies enough. -/
def replaceGo (pat repl : List Char) : Nat → List Char → List Char
  | _, [] => []
  | 0, s => s
  | Nat.succ fuel, c :: s =>
    if pat.isPrefixOf (c :: s) then
      repl ++ replaceGo pat repl fuel (List.drop pat.length (c :: s))
    else
      c :: replaceGo pat repl fuel s

/-- Python `s.replace(pat, repl)` (for nonempty `pat`, the only way the
source uses it). -/
def pyReplace (s pat repl : List Char) : List Char := replaceGo pat repl s.length s

/-- The placeholder paragraph from `insert_custom_content` (src/main.py:345). -/
def placeholderStr : List Char :=
  ("<p style=\"margin: 0; background-font-weight: normal;\">!-- CUSTOM_CONTENT --!</p>").toList

/-- The closing body tag used by `insert_custom_content`. -/
def bodyCloseTag : List Char := ("</body>").toList

/-- `insert_custom_content` (src/main.py:344-349): replace the placeholder
paragraph by the custom HTML when the template contains it, otherwise
replace `</body>` by the custom HTML followed by `</body>`. -/
def insert_custom_content (template_html custom_html : List Char) : List Char :=
  if occursB placeholderStr template_html then
    pyReplace template_html placeholderStr custom_html
  else
    pyReplace template_html bodyCloseTag (custom_html ++ bodyCloseTag)

instance exceptDecEq {ε α : Type} [DecidableEq ε] [DecidableEq α] :
    DecidableEq (Except ε α) := fun x y =>
  match x, y with
  | .ok a, .ok b =>
    if h : a = b then isTrue (by rw [h]) else isFalse (by intro hc; cases hc; exact h rfl)
  | .error a, .error b =>
    if h : a = b then isTrue (by rw [h]) else isFalse (by intro hc; cases hc; exact h rfl)
  | .ok _, .error _ => isFalse (by intro hc; cases hc)
  | .error _, .ok _ => isFalse (by intro hc; cases hc)

/-- A Python `datetime.date`, restricted to the fields the service uses. -/
structure PyDate where
  y : Nat
  m : Nat
  d : Nat
deriving DecidableEq, Repr

/-- Decimal digit character (total; arguments above `9` clamp to `'9'`,
a case never reached by the formatters, which pass reduced digits). -/
def dchar : Nat → Char
  | 0 => '0'
  | 1 => '1'
  | 2 => '2'
  | 3 => '3'
  | 4 => '4'
  | 5 => '5'
  | 6 => '6'
  | 7 => '7'
  | 8 => '8'
  | _ => '9'

/-- Numeric value of a digit character. -/
def digitVal (c : Char) : Nat := c.toNat - 48

/-- Two-digit zero-padded decimal rendering (strftime `%m`, `%d`, `%H`, ...). -/
def pad2 (n : Nat) : List Char := [dchar (n / 10), dchar (n % 10)]

/-- Four-digit zero-padded decimal rendering (strftime `%Y`). -/
def pad4 (n : Nat) : List Char :=
  [dchar (n / 1000), dchar (n / 100 % 10), dchar (n / 10 % 10), dchar (n % 10)]

/-- `date.strftime("%Y-%m-%d")`. -/
def formatYMD (d : PyDate) : List Char :=
  pad4 d.y ++ '-' :: (pad2 d.m ++ '-' :: pad2 d.d)

/-- Leap-year test of the Gregorian calendar (as in Python `calendar`). -/
def isLeap (y : Nat) : Bool := (y % 4 = 0 && y % 100 != 0) || y % 400 = 0

/-- Number of days in a month. -/
def daysInMonth (y m : Nat) : Nat :=
  if m = 2 then (if isLeap y then 29 else 28)
  else if m = 4 ∨ m = 6 ∨ m = 9 ∨ m = 11 then 30
  else 31

/-- The validation performed by the `datetime.date` constructor: year
`1..9999`, month `1..12`, day within the month. -/
def mkDate (y m d : Nat) : Option PyDate :=
  if 1 ≤ y ∧ y ≤ 9999 ∧ 1 ≤ m ∧ m ≤ 12 ∧ 1 ≤ d ∧ d ≤ daysInMonth y m then
    some ⟨y, m, d⟩
  else none

/-- strptime `%Y`: exactly four decimal digits (CPython `_strptime` uses
the pattern `\d\d\d\d`). -/
def read4Digits : List Char → Option (Nat × List Char)
  | a :: b :: c :: d :: rest =>
    if a.isDigit && b.isDigit && c.isDigit && d.isDigit then
      some (digitVal a * 1000 + digitVal b * 100 + digitVal c * 10 + digitVal d, rest)
    else none
  | _ => none

/-- strptime `%m` / `%I`: CPython pattern `1[0-2]|0[1-9]|[1-9]`, alternatives
tried in that order. -/
def read1to12 : List Char → Option (Nat × List Char)
  | a :: b :: rest =>
    if a = '1' ∧ ('0' ≤ b ∧ b ≤ '2') then some (10 + digitVal b, rest)
    else if a = '0' ∧ ('1' ≤ b ∧ b ≤ '9') then some (digitVal b, rest)
    else if '1' ≤ a ∧ a ≤ '9' then some (digitVal a, b :: rest)
    else none
  | [a] => if '1' ≤ a ∧ a ≤ '9' then some (digitVal a, []) else none
  | [] => none

/-- strptime `%d`: CPython pattern `3[01]|[12]\d|0[1-9]|[1-9]`, alternatives
tried in that order. -/
def read1to31 : List Char → Option (Nat × List Char)
  | a :: b :: rest =>
    if a = '3' ∧ ('0' ≤ b ∧ b ≤ '1') then some (30 + digitVal b, rest)
    else if ('1' ≤ a ∧ a ≤ '2') ∧ b.isDigit then some (digitVal a * 10 + digitVal b, rest)
    else if a = '0' ∧ ('1' ≤ b ∧ b ≤ '9') then some (digitVal b, rest)
    else if '1' ≤ a ∧ a ≤ '9' then some (digitVal a, b :: rest)
    else none
  | [a] => if '1' ≤ a ∧ a ≤ '9' then some (digitVal a, []) else none
  | [] => none

/-- strptime `%M`: CPython pattern `[0-5]\d|\d`. -/
def readMinute : List Char → Option (Nat × List Char)
  | a :: b :: rest =>
    if ('0' ≤ a ∧ a ≤ '5') ∧ b.isDigit then some (digitVal a * 10 + digitVal b, rest)
    else if a.isDigit then some (digitVal a, b :: rest)
    else none
  | [a] => if a.isDigit then some (digitVal a, []) else none
  | [] => none

/-- strptime `%p`: `AM` or `PM`, case-insensitive; `true` means PM. -/
def readAmPm : List Char → Option (Bool × List Char)
  | a :: b :: rest =>
    if (a = 'A' ∨ a = 'a') ∧ (b = 'M' ∨ b = 'm') then some (false, rest)
    else if (a = 'P' ∨ a = 'p') ∧ (b = 'M' ∨ b = 'm') then some (true, rest)
    else none
  | _ => none

/-- A literal character of a strptime format. -/
def expectChar (c : Char) : List Char → Option (List Char)
  | d :: rest => if d = c then some rest else none
  | [] => none

/-- `datetime.strptime(s, "%Y-%m-%d").date()`: the whole string must be
consumed, then the `date` constructor validates the triple. -/
def strptime_Ymd (s : List Char) : Option PyDate :=
  (read4Digits s).bind fun yr =>
  (expectChar '-' yr.2).bind fun r2 =>
  (read1to12 r2).bind fun mr =>
  (expectChar '-' mr.2).bind fun r4 =>
  (read1to31 r4).bind fun dr =>
  if dr.2 = [] then mkDate yr.1 mr.1 dr.1 else none

/-- `datetime.strptime(s, "%d-%m-%Y").date()` (used by the Fetcher on the
extracted upload-date token). -/
def strptime_dmY (s : List Char) : Option PyDate :=
  (read1to31 s).bind fun dr =>
  (expectChar '-' dr.2).bind fun r2 =>
  (read1to12 r2).bind fun mr =>
  (expectChar '-' mr.2).bind fun r4 =>
  (read4Digits r4).bind fun yr =>
  if yr.2 = [] then mkDate yr.1 mr.1 dr.1 else none

/-- `parse_date` (src/main.py:103-107) as invoked by the endpoints, i.e.
with the `"%Y-%m-%d"` format: `None` on any `ValueError`. -/
def parse_date (s : List Char) : Option PyDate := strptime_Ymd s

/-- Modelled from the spec: a "valid `YYYY-MM-DD` string" — exactly ten
characters, four digits, a dash, two digits, a dash, two digits, denoting
a real calendar date. -/
def isValidYMD (s : List Char) : Bool :=
  match s with
  | [y1, y2, y3, y4, h1, m1, m2, h2, d1, d2] =>
    y1.isDigit && y2.isDigit && y3.isDigit && y4.isDigit &&
    h1 = '-' && h2 = '-' && m1.isDigit && m2.isDigit && d1.isDigit && d2.isDigit &&
    (mkDate (digitVal y1 * 1000 + digitVal y2 * 100 + digitVal y3 * 10 + digitVal y4)
      (digitVal m1 * 10 + digitVal m2) (digitVal d1 * 10 + digitVal d2)).isSome
  | _ => false

/-- The `"%I:%M %p"` tail of the schedule-time format, including the
12-to-24-hour conversion CPython applies for `%I` with `%p`. -/
def strptime_IMp_tail (dateOpt : Option PyDate) (r : List Char) :
    Option (PyDate × Nat × Nat) :=
  (read1to12 r).bind fun hr =>
  (expectChar ':' hr.2).bind fun r8 =>
  (readMinute r8).bind fun mir =>
  (expectChar ' ' mir.2).bind fun r10 =>
  (readAmPm r10).bind fun pr =>
  if pr.2 = [] then
    dateOpt.bind fun date =>
    let h24 := if pr.1 then (if hr.1 = 12 then 12 else hr.1 + 12)
               else (if hr.1 = 12 then 0 else hr.1)
    some (date, h24, mir.1)
  else none

/-- `datetime.strptime(s, "%Y-%m-%d %I:%M %p")`: date plus 12-hour time;
returns the date, the 24-hour hour, and the minute. -/
def strptime_Ymd_IMp (s : List Char) : Option (PyDate × Nat × Nat) :=
  (read4Digits s).bind fun yr =>
  (expectChar '-' yr.2).bind fun r2 =>
  (read1to12 r2).bind fun mr =>
  (expectChar '-' mr.2).bind fun r4 =>
  (read1to31 r4).bind fun dr =>
  (expectChar ' ' dr.2).bind fun r6 =>
  strptime_IMp_tail (mkDate yr.1 mr.1 dr.1) r6

/-- Days since 1970-01-01 of a civil date (standard civil-calendar
conversion, as performed by Python's date arithmetic). -/
def daysFromCivil (y m d : Nat) : Int :=
  let yy : Int := if m ≤ 2 then (y : Int) - 1 else (y : Int)
  let era : Int := Int.fdiv yy 400
  let yoe : Int := yy - era * 400
  let mp : Int := if 2 < m then (m : Int) - 3 else (m : Int) + 9
  let doy : Int := Int.fdiv (153 * mp + 2) 5 + (d : Int) - 1
  let doe : Int := yoe * 365 + Int.fdiv yoe 4 - Int.fdiv yoe 100 + doy
  era * 146097 + doe - 719468

/-- Civil date of a count of days since 1970-01-01 (inverse of
`daysFromCivil`). -/
def civilFromDays (z0 : Int) : Int × Int × Int :=
  let z := z0 + 719468
  let era : Int := Int.fdiv z 146097
  let doe : Int := z - era * 146097
  let yoe : Int :=
    Int.fdiv (doe - Int.fdiv doe 1460 + Int.fdiv doe 36524 - Int.fdiv doe 146096) 365
  let y : Int := yoe + era * 400
  let doy : Int := doe - (365 * yoe + Int.fdiv yoe 4 - Int.fdiv yoe 100)
  let mp : Int := Int.fdiv (5 * doy + 2) 153
  let d : Int := doy - Int.fdiv (153 * mp + 2) 5 + 1
  let m : Int := if mp < 10 then mp + 3 else mp - 9
  (if m ≤ 2 then y + 1 else y, m, d)

/-- Error message stand-in for the `ValueError` that
`datetime.strptime` raises on unparseable input. -/
def strptimeValueErrorMsg : List Char := ("time data does not match format").toList

/-- The microsecond field rendered by strftime `%f` when the parsed
datetime carries no sub-second component. -/
def microZeros : List Char := ("000000").toList

/-- `convert_to_utc` (src/main.py:352-363): parse
`"{date} {time} {AM/PM}"` with `"%Y-%m-%d %I:%M %p"`, attach the
Asia/Kolkata zone (UTC+05:30 for all modern dates, which is what
`pytz.timezone("Asia/Kolkata").localize` yields), convert to UTC and
render with `"%Y-%m-%dT%H:%M:%S.%fZ"`.  A parse failure is the
propagated `ValueError`. -/
def convert_to_utc (ist_date_str ist_time_str am_pm : List Char) :
    Except (List Char) (List Char) :=
  let ist_datetime_str := ist_date_str ++ ' ' :: ist_time_str ++ ' ' :: am_pm
  match strptime_Ymd_IMp ist_datetime_str with
  | none => .error strptimeValueErrorMsg
  | some (date, h24, mi) =>
    let total : Int := daysFromCivil date.y date.m date.d * 1440 + (h24 * 60 + mi : Nat) - 330
    let days : Int := Int.fdiv total 1440
    let rem : Int := Int.fmod total 1440
    let (y2, m2, d2) := civilFromDays days
    .ok (pad4 y2.toNat ++ '-' :: pad2 m2.toNat ++ '-' :: pad2 d2.toNat ++
         'T' :: pad2 (rem / 60).toNat ++ ':' :: pad2 (rem % 60).toNat ++
         ':' :: pad2 0 ++ '.' :: microZeros ++ ['Z'])

/-- Decimal rendering of a natural number (Python `str(n)` / f-string). -/
def natToChars (n : Nat) : List Char := Nat.toDigits 10 n

/-- A FastAPI `HTTPException` payload: status code and detail string. -/
structure HTTPError where
  status : Nat
  detail : List Char
deriving DecidableEq, Repr

/-- An exception live inside a handler's `try` block: either an
`HTTPException` raised by the code itself or any other Python exception,
carried as its `str(e)` form. -/
inductive ExcVal
  | http (status : Nat) (detail : List Char)
  | py (msg : List Char)
deriving DecidableEq, Repr

/-- Python `str(e)`: for `HTTPException`, starlette renders
`f"{status_code}: {detail}"`; for other exceptions the message itself. -/
def excStr : ExcVal → List Char
  | .http s d => natToChars s ++ ':' :: ' ' :: d
  | .py m => m

/-- The `except Exception as e: raise HTTPException(status_code=500,
detail=str(e))` pattern shared by the endpoints: every exception escaping
the `try` block — including the handler's own `HTTPException`s, which are
`Exception` subclasses — is re-raised as a 500 whose detail is `str(e)`. -/
def wrapExcept {α : Type} (r : Except ExcVal α) : Except HTTPError α :=
  match r with
  | .ok v => .ok v
  | .error e => .error ⟨500, excStr e⟩

/-- The pydantic `Summary` model (src/main.py:76-85).  A value of this
type has every required field present by construction. -/
structure Summary where
  date : List Char
  CA : List Char
  title : List Char
  Respondent : List Char
  background : List Char
  chronology : List (List Char)
  key_points : List (List Char)
  conclusion : List (List Char)
  Judgment_By : List (List Char)
deriving DecidableEq, Repr

/-- The two failure shapes of `generate_summary`: a `json.JSONDecodeError`
(the detail is the cleaned text handed to `json.loads`) or any other
exception (the detail is `str(e)`). -/
inductive SummErr
  | decodeFail (cleaned : List Char)
  | otherExc (msg : List Char)
deriving DecidableEq, Repr

/-- `str(ValueError(...))` raised when no brace pair can be found
(src/main.py:208). -/
def couldNotExtractMsg : List Char :=
  ("Could not extract valid JSON from the response").toList

/-- `json.loads` on the cleaned text: success keeps the parsed value,
a decode error returns the cleaned text itself as the failure detail
(src/main.py:210-212). -/
def jsonAttempt (loads : List Char → Except (List Char) Summary) (cleaned : List Char) :
    Except SummErr Summary :=
  match loads cleaned with
  | .ok v => .ok v
  | .error _ => .error (.decodeFail cleaned)

/-- `generate_summary` (src/main.py:199-214), response handling only.
`loads` stands for `json.loads` followed by the schema check (external
library code); `resp` is the generation-model response text, or the
`str(e)` of an exception the model call raised. -/
def generate_summary (loads : List Char → Except (List Char) Summary)
    (resp : Except (List Char) (List Char)) : Except SummErr Summary :=
  match resp with
  | .error m => .error (.otherExc m)
  | .ok t =>
    let cleaned := pyStrip t
    if startsWithL [lbraceC] cleaned && endsWithL [rbraceC] cleaned then
      jsonAttempt loads cleaned
    else
      match pyFindChar lbraceC cleaned, pyRfindChar rbraceC cleaned with
      | some i, some j => jsonAttempt loads (pySlice cleaned i (j + 1))
      | some _, none => .error (.otherExc couldNotExtractMsg)
      | none, _ => .error (.otherExc couldNotExtractMsg)

/-- A document of the `SeraAI` MongoDB collection: the `date` field the
read path filters on, plus the store-assigned id and the remaining
payload, opaque here. -/
structure StoredArticle where
  date : List Char
  oid : List Char
  payload : List Char
deriving DecidableEq, Repr

/-- `fetch_articles_from_mongodb` (src/main.py:283-292): render the query
date with `strftime("%Y-%m-%d")` and return the documents whose `date`
field equals that exact string (`collection.find({"date": date_str})`),
in store order. -/
def fetch_articles_from_mongodb (db : List StoredArticle) (date : PyDate) :
    List StoredArticle :=
  let date_str := formatYMD date
  db.filter (fun a => a.date == date_str)

/-- Response model of the newsletter endpoint. -/
structure NewsletterData where
  body : List Char
deriving DecidableEq, Repr

/-- Detail of the 400 raised on an unparseable date (src/main.py:417-420). -/
def invalidDateMsg : List Char :=
  ("Invalid date format. Please use YYYY-MM-DD format.").toList

/-- Detail of the 404 raised when the store has no articles (src/main.py:422-425). -/
def noArticlesMsg : List Char :=
  ("No articles found for the specified date.").toList

/-- Body of `generate_newsletter_endpoint` (src/main.py:413-430) inside its
`try` block.  `db` is the store contents, `genNl` the generative-model call
producing the newsletter HTML (or the `str(e)` of the exception it raised),
`extractBody` the BeautifulSoup body extraction. -/
def generate_newsletter_try (db : List StoredArticle)
    (genNl : List StoredArticle → Except (List Char) (List Char))
    (extractBody : List Char → List Char) (date : List Char) :
    Except ExcVal NewsletterData :=
  match parse_date date with
  | none => .error (.http 400 invalidDateMsg)
  | some pd =>
    let articles := fetch_articles_from_mongodb db pd
    if articles.isEmpty then .error (.http 404 noArticlesMsg)
    else
      match genNl articles with
      | .error m => .error (.py m)
      | .ok html => .ok ⟨extractBody html⟩

/-- `generate_newsletter_endpoint` with its `except Exception` wrapper. -/
def generate_newsletter_endpoint (db : List StoredArticle)
    (genNl : List StoredArticle → Except (List Char) (List Char))
    (extractBody : List Char → List Char) (date : List Char) :
    Except HTTPError NewsletterData :=
  wrapExcept (generate_newsletter_try db genNl extractBody date)

/-- A judgment link of the scraped listing page, after BeautifulSoup has
located the container: the anchor's `href`, its text, and the text of the
adjacent upload-date `div` when present. -/
structure PageEntry where
  href : List Char
  text : List Char
  uploadDiv : Option (List Char)
deriving DecidableEq, Repr

/-- An element of the `pdf_links` list of `fetch_from_website`
(src/main.py:140-142): rewritten link, stripped description, parsed
upload date. -/
structure PdfLink where
  href : List Char
  description : List Char
  uploadDate : PyDate
deriving DecidableEq, Repr

/-- Characters `re.sub(r"[<>:\"/\\|?*]", "_", ...)` replaces. -/
def forbiddenFnameChar (c : Char) : Bool :=
  c = '<' || c = '>' || c = ':' || c = '"' || c = '/' || c = '\\' || c = '|' ||
    c = '?' || c = '*'

/-- `sanitize_filename` (src/main.py:99-100). -/
def sanitize_filename (s : List Char) : List Char :=
  s.map (fun c => if forbiddenFnameChar c then '_' else c)

/-- Ten characters matching the regex `\d{2}-\d{2}-\d{4}` at the head of `s`. -/
def isDateTokenAt (s : List Char) : Bool :=
  match s with
  | a :: b :: h1 :: c :: d :: h2 :: e :: f :: g :: h :: _ =>
    a.isDigit && b.isDigit && h1 = '-' && c.isDigit && d.isDigit && h2 = '-' &&
      e.isDigit && f.isDigit && g.isDigit && h.isDigit
  | _ => false

/-- `re.search(r"\d{2}-\d{2}-\d{4}", text)`: the first (leftmost) match. -/
def findDateToken : List Char → Option (List Char)
  | [] => none
  | c :: s => if isDateTokenAt (c :: s) then some ((c :: s).take 10) else findDateToken s

/-- Message stand-in for the `AttributeError` raised by `.group()` when
`re.search` returned `None` (src/main.py:132-134). -/
def attributeErrorMsg : List Char :=
  ("NoneType object has no attribute group").toList

/-- One iteration of the link-collection loop of `fetch_from_website`
(src/main.py:122-142): filter by `.pdf` suffix or `view-pdf` marker,
rewrite `view-pdf` to `sci-get-pdf`, require an upload-date `div`, extract
and parse the date token, keep the link only when the date equals the
requested one.  A missing token or unparseable date is an uncaught
exception. -/
def processEntry (user_date : PyDate) (e : PageEntry) :
    Except (List Char) (Option PdfLink) :=
  if endsWithL (".pdf").toList e.href || occursB ("view-pdf").toList e.href then
    let href := pyReplace e.href ("view-pdf").toList ("sci-get-pdf").toList
    match e.uploadDiv with
    | none => .ok none
    | some divText =>
      match findDateToken divText with
      | none => .error attributeErrorMsg
      | some tok =>
        match strptime_dmY tok with
        | none => .error strptimeValueErrorMsg
        | some ud =>
          if ud = user_date then .ok (some ⟨href, pyStrip e.text, ud⟩)
          else .ok none
  else .ok none

/-- The `pdf_links` list accumulated by `fetch_from_website`, in page order. -/
def collectPdfLinks (user_date : PyDate) : List PageEntry → Except (List Char) (List PdfLink)
  | [] => .ok []
  | e :: rest =>
    match processEntry user_date e with
    | .error ex => .error ex
    | .ok none => collectPdfLinks user_date rest
    | .ok (some l) =>
      match collectPdfLinks user_date rest with
      | .error ex => .error ex
      | .ok ls => .ok (l :: ls)

/-- `f"{idx+1}_{sanitize_filename(description[:100])}.pdf"` (src/main.py:147). -/
def pdfName (idx : Nat) (description : List Char) : List Char :=
  natToChars (idx + 1) ++ '_' :: (sanitize_filename (description.take 100) ++ (".pdf").toList)

/-- The download loop of `fetch_from_website` (src/main.py:144-153):
download each kept link, silently skipping non-200 responses (`download`
returns `none`), and record `(pdf_name, temp_file.name)`; `tmpname` is the
temporary-file name generator. -/
def buildFetched (download : List Char → Option (List Char)) (tmpname : Nat → List Char)
    (links : List PdfLink) : List (List Char × List Char) :=
  links.enum.filterMap (fun p =>
    match download p.2.href with
    | some _ => some (pdfName p.1 p.2.description, tmpname p.1)
    | none => none)

/-- `fetch_from_website` (src/main.py:110-154): on a non-200 listing
response the result is the empty list; otherwise collect matching links
and download them. -/
def fetch_from_website (download : List Char → Option (List Char))
    (tmpname : Nat → List Char) (status : Nat) (entries : List PageEntry)
    (user_date : PyDate) : Except (List Char) (List (List Char × List Char)) :=
  if status = 200 then
    match collectPdfLinks user_date entries with
    | .error ex => .error ex
    | .ok links => .ok (buildFetched download tmpname links)
  else .ok []

/-- The response item model of the fetch endpoint (src/main.py:72-74). -/
structure PDFData where
  filename : List Char
  file_content : List Char
deriving DecidableEq, Repr

/-- `extract_text_from_pdf` (src/main.py:157-166): concatenate the text of
every page, or `None` when the file cannot be opened or parsed (`readPdf`
returns the page texts, or `none` for a failure). -/
def extract_text_from_pdf (readPdf : List Char → Option (List (List Char)))
    (pdf_path : List Char) : Option (List Char) :=
  match readPdf pdf_path with
  | none => none
  | some pages => some (pages.foldl (fun acc t => acc ++ t) [])

/-- Detail of the 500 raised when extraction yields nothing (src/main.py:384-387). -/
def failedExtractMsg (name : List Char) : List Char :=
  ("Failed to extract text from PDF: ").toList ++ name

/-- The extraction loop of `fetch_pdfs` (src/main.py:379-387): Python's
`if text:` treats both `None` and the empty string as failure. -/
def fetch_pdfs_loop (readPdf : List Char → Option (List (List Char))) :
    List (List Char × List Char) → Except ExcVal (List PDFData)
  | [] => .ok []
  | (name, path) :: rest =>
    match extract_text_from_pdf readPdf path with
    | some t =>
      if t = [] then .error (.http 500 (failedExtractMsg name))
      else
        match fetch_pdfs_loop readPdf rest with
        | .ok l => .ok (⟨name, t⟩ :: l)
        | .error e => .error e
    | none => .error (.http 500 (failedExtractMsg name))

/-- Body of the `fetch_pdfs` endpoint (src/main.py:371-388) inside its
`try` block. -/
def fetch_pdfs_try (download : List Char → Option (List Char))
    (tmpname : Nat → List Char) (status : Nat) (entries : List PageEntry)
    (readPdf : List Char → Option (List (List Char))) (user_date : List Char) :
    Except ExcVal (List PDFData) :=
  match parse_date user_date with
  | none => .error (.http 400 invalidDateMsg)
  | some pd =>
    match fetch_from_website download tmpname status entries pd with
    | .error ex => .error (.py ex)
    | .ok fetched => fetch_pdfs_loop readPdf fetched

/-- `fetch_pdfs` with its `except Exception` wrapper (src/main.py:389-390). -/
def fetch_pdfs_endpoint (download : List Char → Option (List Char))
    (tmpname : Nat → List Char) (status : Nat) (entries : List PageEntry)
    (readPdf : List Char → Option (List (List Char))) (user_date : List Char) :
    Except HTTPError (List PDFData) :=
  wrapExcept (fetch_pdfs_try download tmpname status entries readPdf user_date)

/-- Request model of the schedule endpoint (src/main.py:90-95). -/
structure ScheduleNewsletterData where
  body : List Char
  list_id : Nat
  scheduled_time : List Char
  period_of_time : List Char
  sender_name : List Char
deriving DecidableEq, Repr

/-- The campaign draft submitted to the provider (src/main.py:322-329). -/
structure CampaignDraft where
  name : List Char
  subject : List Char
  sender_name : List Char
  sender_email : List Char
  htmlContent : List Char
  list_id : Nat
  scheduledAt : List Char
deriving DecidableEq, Repr

/-- `str(IndexError)` for `templates[1]` on a short list (src/main.py:436). -/
def indexErrorMsg : List Char := ("list index out of range").toList

/-- The fixed sender address (src/main.py:439). -/
def senderEmail : List Char := ("newsletter@seraphicadvisors.info").toList

/-- Body of `schedule_newsletter_endpoint` (src/main.py:432-453) inside its
`try` block: select the second provider template, fetch its HTML, convert
the requested local time (today's date) to UTC, splice the newsletter body
into the template, and submit the campaign draft.  `templates`, `preview`
and `createCampaign` are the Brevo API calls; `todayStr` is
`datetime.now().strftime("%Y-%m-%d")` and `subject` is `generate_subject()`. -/
def schedule_newsletter_try (templates : List (Nat × List Char))
    (preview : Nat → Except ExcVal (List Char)) (todayStr : List Char)
    (createCampaign : CampaignDraft → Except ExcVal (List Char))
    (subject : List Char) (data : ScheduleNewsletterData) :
    Except ExcVal (List Char) :=
  match templates.get? 1 with
  | none => .error (.py indexErrorMsg)
  | some selected =>
    match preview selected.1 with
    | .error e => .error e
    | .ok template_html =>
      match convert_to_utc todayStr data.scheduled_time data.period_of_time with
      | .error m => .error (.py m)
      | .ok scheduled_utc_time =>
        let modified_html := insert_custom_content template_html data.body
        createCampaign
          ⟨subject, subject, data.sender_name, senderEmail, modified_html,
            data.list_id, scheduled_utc_time⟩

/-- `schedule_newsletter_endpoint` with its `except Exception` wrapper. -/
def schedule_newsletter_endpoint (templates : List (Nat × List Char))
    (preview : Nat → Except ExcVal (List Char)) (todayStr : List Char)
    (createCampaign : CampaignDraft → Except ExcVal (List Char))
    (subject : List Char) (data : ScheduleNewsletterData) :
    Except HTTPError (List Char) :=
  wrapExcept
    (schedule_newsletter_try templates preview todayStr createCampaign subject data)

/-- A sample summary record for concrete checks. -/
def wSummary : Summary := ⟨("2024-07-16").toList, [], [], [], [], [], [], [], []⟩

/-- The three-character object text between braces used in concrete checks. -/
def wBraceX : List Char := lbraceC :: 'x' :: [rbraceC]

/-- A model response with prose around a JSON object. -/
def wProse : List Char := ("pre ").toList ++ wBraceX ++ (" post").toList

/-- A listing-page entry dated 16-07-2024. -/
def wEntryA : PageEntry :=
  ⟨("a/view-pdf/1").toList, ("Case A").toList, some (("Uploaded on 16-07-2024").toList)⟩

/-- A listing-page entry dated one day earlier, 15-07-2024. -/
def wEntryB : PageEntry :=
  ⟨("a/view-pdf/2").toList, ("Case B").toList, some (("Uploaded on 15-07-2024").toList)⟩

/-- The link `wEntryA` yields for 2024-07-16. -/
def wLinkA : PdfLink := ⟨("a/sci-get-pdf/1").toList, ("Case A").toList, ⟨2024, 7, 16⟩⟩

/-! ### Helper lemmas -/

/-- `replaceGo` does not depend on the fuel once it covers the input length. -/
theorem replaceGo_fuel_congr (pat repl : List Char) (hpat : pat ≠ []) :
    ∀ (n m : Nat) (s : List Char), s.length ≤ n → s.length ≤ m →
      replaceGo pat repl n s = replaceGo pat repl m s := by
  have hplen : 1 ≤ pat.length := by
    cases pat with
    | nil => exact absurd rfl hpat
    | cons _ _ => simp
  intro n
  induction n with
  | zero =>
    intro m s hn _
    have hs : s = [] := List.eq_nil_of_length_eq_zero (Nat.le_zero.mp hn)
    subst hs
    cases m <;> rfl
  | succ n ih =>
    intro m s hn hm
    cases s with
    | nil => cases m <;> rfl
    | cons c s =>
      simp only [List.length_cons] at hn hm
      cases m with
      | zero => omega
      | succ m =>
        simp only [replaceGo]
        by_cases h : pat.isPrefixOf (c :: s)
        · rw [if_pos h, if_pos h]
          congr 1
          exact ih m (List.drop pat.length (c :: s))
            (by simp only [List.length_drop, List.length_cons]; omega)
            (by simp only [List.length_drop, List.length_cons]; omega)
        · rw [if_neg h, if_neg h]
          exact congrArg (c :: ·) (ih m s (by omega) (by omega))

/-- A successful `splitFirst` is a decomposition of the scanned string. -/
theorem splitFirst_eq_append (pat : List Char) :
    ∀ (s a b : List Char), splitFirst pat s = some (a, b) → s = a ++ pat ++ b := by
  intro s
  induction s with
  | nil =>
    intro a b h
    simp only [splitFirst] at h
    split at h
    · rename_i hp
      have hpe : pat = [] := by
        cases pat with
        | nil => rfl
        | cons x p => simp [List.isPrefixOf] at hp
      simp only [Option.some.injEq, Prod.mk.injEq] at h
      obtain ⟨rfl, rfl⟩ := h
      simp [hpe]
    · exact absurd h (by simp)
  | cons c s ih =>
    intro a b h
    simp only [splitFirst] at h
    split at h
    · rename_i hp
      simp only [Option.some.injEq, Prod.mk.injEq] at h
      obtain ⟨rfl, rfl⟩ := h
      have := List.prefix_iff_eq_append.mp (List.isPrefixOf_iff_prefix.mp hp)
      simpa using this.symm
    · rename_i hp
      split at h
      · rename_i a' b' hsplit
        simp only [Option.some.injEq, Prod.mk.injEq] at h
        obtain ⟨rfl, rfl⟩ := h
        simp [ih a' b' hsplit]
      · exact absurd h (by simp)

/-- `str.replace` is the identity when the pattern does not occur. -/
theorem pyReplace_of_splitFirst_none (pat repl : List Char) :
    ∀ s, splitFirst pat s = none → pyReplace s pat repl = s := by
  intro s
  induction s with
  | nil => intro _; rfl
  | cons c s ih =>
    intro h
    simp only [splitFirst] at h
    split at h
    · exact absurd h (by simp)
    · rename_i hp
      split at h
      · exact absurd h (by simp)
      · rename_i hsplit
        show replaceGo pat repl (c :: s).length (c :: s) = c :: s
        simp only [List.length_cons, replaceGo, if_neg hp]
        exact congrArg (c :: ·) (ih hsplit)

/-- `str.replace` replaces the first occurrence and continues after it. -/
theorem pyReplace_splitFirst_some (pat repl : List Char) (hpat : pat ≠ []) :
    ∀ (s a b : List Char), splitFirst pat s = some (a, b) →
      pyReplace s pat repl = a ++ repl ++ pyReplace b pat repl := by
  have hplen : 1 ≤ pat.length := by
    cases pat with
    | nil => exact absurd rfl hpat
    | cons _ _ => simp
  intro s
  induction s with
  | nil =>
    intro a b h
    simp only [splitFirst] at h
    rw [if_neg] at h
    · exact absurd h (by simp)
    · cases pat with
      | nil => exact absurd rfl hpat
      | cons x p => simp [List.isPrefixOf]
  | cons c s ih =>
    intro a b h
    simp only [splitFirst] at h
    split at h
    · rename_i hp
      simp only [Option.some.injEq, Prod.mk.injEq] at h
      obtain ⟨rfl, rfl⟩ := h
      show replaceGo pat repl (c :: s).length (c :: s) = _
      simp only [List.length_cons, replaceGo, if_pos hp]
      rw [replaceGo_fuel_congr pat repl hpat s.length
        (List.drop pat.length (c :: s)).length (List.drop pat.length (c :: s))
        (by simp only [List.length_drop, List.length_cons]; omega) le_rfl]
      rfl
    · rename_i hp
      split at h
      · rename_i a' b' hsplit
        simp only [Option.some.injEq, Prod.mk.injEq] at h
        obtain ⟨rfl, rfl⟩ := h
        show replaceGo pat repl (c :: s).length (c :: s) = _
        simp only [List.length_cons, replaceGo, if_neg hp]
        have : replaceGo pat repl s.length s = pyReplace s pat repl := rfl
        rw [this, ih a' b' hsplit]
        rfl
      · exact absurd h (by simp)

/-- If a character has no occurrence, the string does not start with it. -/
theorem pyFindChar_none_head (c : Char) (s : List Char) (h : pyFindChar c s = none) :
    List.isPrefixOf [c] s = false := by
  cases s with
  | nil => rfl
  | cons d s =>
    simp only [pyFindChar] at h
    split at h
    · exact absurd h (by simp)
    · rename_i hd
      have hcd : (c == d) = false := beq_eq_false_iff_ne.mpr (fun hcd => hd hcd.symm)
      show (c == d && List.isPrefixOf ([] : List Char) s) = false
      rw [hcd]
      rfl

/-- If a character has no occurrence, the string does not end with it. -/
theorem pyRfindChar_none_tail (c : Char) (s : List Char) (h : pyRfindChar c s = none) :
    endsWithL [c] s = false := by
  unfold pyRfindChar at h
  split at h
  · exact absurd h (by simp)
  · rename_i hfind
    exact pyFindChar_none_head c s.reverse hfind

/-- Digit characters are digits. -/
theorem dchar_isDigit (k : Nat) : (dchar k).isDigit = true := by
  rcases k with _|_|_|_|_|_|_|_|_|k <;> rfl

/-- `digitVal` inverts `dchar` on digit values. -/
theorem digitVal_dchar (k : Nat) (hk : k ≤ 9) : digitVal (dchar k) = k := by
  interval_cases k <;> rfl

/-- strptime `%Y` reads back four rendered digits. -/
theorem read4Digits_dchar (a b c d : Nat) (rest : List Char)
    (ha : a ≤ 9) (hb : b ≤ 9) (hc : c ≤ 9) (hd : d ≤ 9) :
    read4Digits (dchar a :: dchar b :: dchar c :: dchar d :: rest) =
      some (a * 1000 + b * 100 + c * 10 + d, rest) := by
  simp only [read4Digits]
  rw [if_pos (show ((dchar a).isDigit && (dchar b).isDigit && (dchar c).isDigit &&
    (dchar d).isDigit) = true by simp [dchar_isDigit])]
  rw [digitVal_dchar a ha, digitVal_dchar b hb, digitVal_dchar c hc, digitVal_dchar d hd]

/-- strptime `%m`/`%I` reads back a zero-padded value `1..9`. -/
theorem read1to12_pad_lo (k : Nat) (rest : List Char) (h1 : 1 ≤ k) (h9 : k ≤ 9) :
    read1to12 (dchar 0 :: dchar k :: rest) = some (k, rest) := by
  interval_cases k <;> rfl

/-- strptime `%m`/`%I` reads back a value `10..12` rendered as `1` and a digit. -/
theorem read1to12_pad_hi (k : Nat) (rest : List Char) (h : k ≤ 2) :
    read1to12 (dchar 1 :: dchar k :: rest) = some (10 + k, rest) := by
  interval_cases k <;> rfl

/-- strptime `%d` reads back a zero-padded value `1..9`. -/
theorem read1to31_pad_lo (k : Nat) (rest : List Char) (h1 : 1 ≤ k) (h9 : k ≤ 9) :
    read1to31 (dchar 0 :: dchar k :: rest) = some (k, rest) := by
  interval_cases k <;> rfl

/-- strptime `%d` reads back a value `10..29`. -/
theorem read1to31_pad_mid (a k : Nat) (rest : List Char)
    (ha1 : 1 ≤ a) (ha2 : a ≤ 2) (hk : k ≤ 9) :
    read1to31 (dchar a :: dchar k :: rest) = some (a * 10 + k, rest) := by
  interval_cases a <;> interval_cases k <;> rfl

/-- strptime `%d` reads back `30` or `31`. -/
theorem read1to31_pad_hi (k : Nat) (rest : List Char) (h : k ≤ 1) :
    read1to31 (dchar 3 :: dchar k :: rest) = some (30 + k, rest) := by
  interval_cases k <;> rfl

/-- The strptime literal consumes the rendered dash. -/
theorem expectChar_cons (c : Char) (rest : List Char) :
    expectChar c (c :: rest) = some rest := by
  simp [expectChar]

/-- `strptime("%Y-%m-%d")` inverts `strftime("%Y-%m-%d")` on every real
calendar date the `datetime.date` constructor accepts. -/
theorem strptime_Ymd_format (y m d : Nat) (h : (mkDate y m d).isSome = true) :
    strptime_Ymd (formatYMD ⟨y, m, d⟩) = some ⟨y, m, d⟩ := by
  have hc : 1 ≤ y ∧ y ≤ 9999 ∧ 1 ≤ m ∧ m ≤ 12 ∧ 1 ≤ d ∧ d ≤ daysInMonth y m := by
    by_contra hnc
    unfold mkDate at h
    rw [if_neg hnc] at h
    simp at h
  obtain ⟨hy1, hy2, hm1, hm2, hd1, hd2⟩ := hc
  have hd31 : d ≤ 31 := by
    have : daysInMonth y m ≤ 31 := by
      unfold daysInMonth
      split
      · split <;> omega
      · split <;> omega
    omega
  have hmk : mkDate y m d = some ⟨y, m, d⟩ := by
    unfold mkDate
    rw [if_pos ⟨hy1, hy2, hm1, hm2, hd1, hd2⟩]
  show strptime_Ymd (pad4 y ++ '-' :: (pad2 m ++ '-' :: pad2 d)) = some ⟨y, m, d⟩
  unfold pad4 pad2
  simp only [List.cons_append, List.nil_append]
  unfold strptime_Ymd
  rw [read4Digits_dchar (y / 1000) (y / 100 % 10) (y / 10 % 10) (y % 10) _
    (by omega) (by omega) (by omega) (by omega)]
  simp only [Option.some_bind]
  have hy : y / 1000 * 1000 + y / 100 % 10 * 100 + y / 10 % 10 * 10 + y % 10 = y := by
    omega
  rw [hy, expectChar_cons]
  simp only [Option.some_bind]
  rcases Nat.lt_or_ge m 10 with hm | hm
  · have e1 : m / 10 = 0 := by omega
    have e2 : m % 10 = m := by omega
    rw [e1, e2, read1to12_pad_lo m _ hm1 (by omega)]
    simp only [Option.some_bind]
    rw [expectChar_cons]
    simp only [Option.some_bind]
    rcases Nat.lt_or_ge d 10 with hdd | hdd
    · have f1 : d / 10 = 0 := by omega
      have f2 : d % 10 = d := by omega
      rw [f1, f2, read1to31_pad_lo d _ hd1 (by omega)]
      simp only [Option.some_bind, if_pos rfl]  -- hmm placeholder
      exact hmk
    · rcases Nat.lt_or_ge d 30 with hdd2 | hdd2
      · have f1 : 1 ≤ d / 10 := by omega
        have f2 : d / 10 ≤ 2 := by omega
        have f3 : d / 10 * 10 + d % 10 = d := by omega
        rw [read1to31_pad_mid (d / 10) (d % 10) _ f1 f2 (by omega), f3]
        simp only [Option.some_bind, if_pos rfl]
        exact hmk
      · have f1 : d / 10 = 3 := by omega
        have f2 : d % 10 = d - 30 := by omega
        have f3 : 30 + (d - 30) = d := by omega
        rw [f1, f2, read1to31_pad_hi (d - 30) _ (by omega), f3]
        simp only [Option.some_bind, if_pos rfl]
        exact hmk
  · have e1 : m / 10 = 1 := by omega
    have e2 : m % 10 = m - 10 := by omega
    have e3 : 10 + (m - 10) = m := by omega
    rw [e1, e2, read1to12_pad_hi (m - 10) _ (by omega), e3]
    simp only [Option.some_bind]
    rw [expectChar_cons]
    simp only [Option.some_bind]
    rcases Nat.lt_or_ge d 10 with hdd | hdd
    · have f1 : d / 10 = 0 := by omega
      have f2 : d % 10 = d := by omega
      rw [f1, f2, read1to31_pad_lo d _ hd1 (by omega)]
      simp only [Option.some_bind, if_pos rfl]
      exact hmk
    · rcases Nat.lt_or_ge d 30 with hdd2 | hdd2
      · have f1 : 1 ≤ d / 10 := by omega
        have f2 : d / 10 ≤ 2 := by omega
        have f3 : d / 10 * 10 + d % 10 = d := by omega
        rw [read1to31_pad_mid (d / 10) (d % 10) _ f1 f2 (by omega), f3]
        simp only [Option.some_bind, if_pos rfl]
        exact hmk
      · have f1 : d / 10 = 3 := by omega
        have f2 : d % 10 = d - 30 := by omega
        have f3 : 30 + (d - 30) = d := by omega
        rw [f1, f2, read1to31_pad_hi (d - 30) _ (by omega), f3]
        simp only [Option.some_bind, if_pos rfl]
        exact hmk

/-- Bounds checked by the `datetime.date` constructor. -/
theorem mkDate_isSome_bounds (y m d : Nat) (h : (mkDate y m d).isSome = true) :
    1 ≤ y ∧ y ≤ 9999 ∧ 1 ≤ m ∧ m ≤ 12 ∧ 1 ≤ d ∧ d ≤ daysInMonth y m := by
  by_contra hnc
  unfold mkDate at h
  rw [if_neg hnc] at h
  simp at h

/-- `dchar` renders `k ≤ 9` as the character of code point `48 + k`. -/
theorem dchar_toNat (k : Nat) (hk : k ≤ 9) : (dchar k).toNat = 48 + k := by
  interval_cases k <;> rfl

/-- A digit character has code point between 48 and 57. -/
theorem char_isDigit_toNat (c : Char) (h : c.isDigit = true) :
    48 ≤ c.toNat ∧ c.toNat ≤ 57 := by
  simp [Char.isDigit] at h
  obtain ⟨h1, h2⟩ := h
  exact ⟨h1, h2⟩

/-- A digit character's value is at most nine. -/
theorem digitVal_le_nine (c : Char) (h : c.isDigit = true) : digitVal c ≤ 9 := by
  obtain ⟨h1, h2⟩ := char_isDigit_toNat c h
  unfold digitVal
  omega

/-- `dchar` inverts `digitVal` on digit characters. -/
theorem dchar_digitVal (c : Char) (h : c.isDigit = true) : dchar (digitVal c) = c := by
  obtain ⟨h1, h2⟩ := char_isDigit_toNat c h
  have hk : digitVal c ≤ 9 := by unfold digitVal; omega
  have ht : (dchar (digitVal c)).toNat = c.toNat := by
    rw [dchar_toNat _ hk]
    unfold digitVal
    omega
  calc dchar (digitVal c)
      = Char.ofNat (dchar (digitVal c)).toNat := (Char.ofNat_toNat _).symm
    _ = Char.ofNat c.toNat := by rw [ht]
    _ = c := Char.ofNat_toNat c

/-- Every valid `YYYY-MM-DD` string is the `strftime("%Y-%m-%d")` rendering
of the calendar date it denotes. -/
theorem isValidYMD_eq_format (s : List Char) (h : isValidYMD s = true) :
    ∃ y m d : Nat, (mkDate y m d).isSome = true ∧ formatYMD ⟨y, m, d⟩ = s := by
  unfold isValidYMD at h
  split at h
  · rename_i y1 y2 y3 y4 h1c m1 m2 h2c d1 d2
    simp only [Bool.and_eq_true, decide_eq_true_eq] at h
    obtain ⟨⟨⟨⟨⟨⟨⟨⟨⟨⟨hy1, hy2⟩, hy3⟩, hy4⟩, hh1⟩, hh2⟩, hm1⟩, hm2⟩, hd1⟩, hd2⟩, hmk⟩ := h
    subst hh1
    subst hh2
    refine ⟨digitVal y1 * 1000 + digitVal y2 * 100 + digitVal y3 * 10 + digitVal y4,
      digitVal m1 * 10 + digitVal m2, digitVal d1 * 10 + digitVal d2, hmk, ?_⟩
    have b1 := digitVal_le_nine y1 hy1
    have b2 := digitVal_le_nine y2 hy2
    have b3 := digitVal_le_nine y3 hy3
    have b4 := digitVal_le_nine y4 hy4
    have b5 := digitVal_le_nine m1 hm1
    have b6 := digitVal_le_nine m2 hm2
    have b7 := digitVal_le_nine d1 hd1
    have b8 := digitVal_le_nine d2 hd2
    show pad4 _ ++ '-' :: (pad2 _ ++ '-' :: pad2 _) = _
    unfold pad4 pad2
    simp only [List.cons_append, List.nil_append]
    have e1 : (digitVal y1 * 1000 + digitVal y2 * 100 + digitVal y3 * 10 + digitVal y4)
        / 1000 = digitVal y1 := by omega
    have e2 : (digitVal y1 * 1000 + digitVal y2 * 100 + digitVal y3 * 10 + digitVal y4)
        / 100 % 10 = digitVal y2 := by omega
    have e3 : (digitVal y1 * 1000 + digitVal y2 * 100 + digitVal y3 * 10 + digitVal y4)
        / 10 % 10 = digitVal y3 := by omega
    have e4 : (digitVal y1 * 1000 + digitVal y2 * 100 + digitVal y3 * 10 + digitVal y4)
        % 10 = digitVal y4 := by omega
    have f1 : (digitVal m1 * 10 + digitVal m2) / 10 = digitVal m1 := by omega
    have f2 : (digitVal m1 * 10 + digitVal m2) % 10 = digitVal m2 := by omega
    have g1 : (digitVal d1 * 10 + digitVal d2) / 10 = digitVal d1 := by omega
    have g2 : (digitVal d1 * 10 + digitVal d2) % 10 = digitVal d2 := by omega
    rw [e1, e2, e3, e4, f1, f2, g1, g2, dchar_digitVal y1 hy1, dchar_digitVal y2 hy2,
      dchar_digitVal y3 hy3, dchar_digitVal y4 hy4, dchar_digitVal m1 hm1,
      dchar_digitVal m2 hm2, dchar_digitVal d1 hd1, dchar_digitVal d2 hd2]
  · simp at h

/-! ### Claim theorems -/

/-- C1 (code bug): in `generate_newsletter_endpoint`, both the 400 raised
for an unparseable date and the 404 raised when the store holds no
articles are caught by the handler's own `except Exception` clause and
re-raised as a 500 whose detail is the `str()` of the original
`HTTPException`; the client therefore receives 500, not 400/404 as the
spec states. -/
theorem generate_newsletter_endpoint_wraps_own_httpexception :
    generate_newsletter_endpoint [] (fun _ => .ok []) id (("16-07-2024").toList) =
      .error ⟨500, ("400: Invalid date format. Please use YYYY-MM-DD format.").toList⟩ ∧
    generate_newsletter_endpoint [] (fun _ => .ok []) id (("2024-07-16").toList) =
      .error ⟨500, ("404: No articles found for the specified date.").toList⟩ :=
  ⟨by decide, by decide⟩

/-- C2 (counterexample): on a template consisting of the placeholder twice,
`insert_custom_content` replaces both occurrences (Python `str.replace`
replaces every occurrence), so the result is neither of the two possible
exactly-once replacements. -/
theorem insert_custom_content_not_exactly_once :
    insert_custom_content (placeholderStr ++ placeholderStr) (("XY").toList) =
      ("XY").toList ++ ("XY").toList ∧
    insert_custom_content (placeholderStr ++ placeholderStr) (("XY").toList) ≠
      ("XY").toList ++ placeholderStr ∧
    insert_custom_content (placeholderStr ++ placeholderStr) (("XY").toList) ≠
      placeholderStr ++ ("XY").toList :=
  ⟨by decide, by decide, by decide⟩

/-- C2 (amended): when the placeholder paragraph occurs exactly once in
the template, `insert_custom_content` replaces that occurrence by the
custom HTML and leaves every other byte unchanged; when it does not occur
and `</body>` occurs exactly once, the custom HTML is inserted
immediately before `</body>`, the rest unchanged.  (With several
occurrences, every one is replaced — see the counterexample.) -/
theorem insert_custom_content_splice (t c a b : List Char) :
    (splitFirst placeholderStr t = some (a, b) → splitFirst placeholderStr b = none →
      t = a ++ placeholderStr ++ b ∧ insert_custom_content t c = a ++ c ++ b) ∧
    (splitFirst placeholderStr t = none → splitFirst bodyCloseTag t = some (a, b) →
      splitFirst bodyCloseTag b = none →
      t = a ++ bodyCloseTag ++ b ∧
        insert_custom_content t c = a ++ c ++ (bodyCloseTag ++ b)) := by
  constructor
  · intro h1 h2
    refine ⟨splitFirst_eq_append _ _ _ _ h1, ?_⟩
    have hocc : occursB placeholderStr t = true := by
      unfold occursB
      rw [h1]
      rfl
    unfold insert_custom_content
    rw [if_pos hocc, pyReplace_splitFirst_some placeholderStr c (by decide) t a b h1,
      pyReplace_of_splitFirst_none placeholderStr c b h2]
  · intro h0 h1 h2
    refine ⟨splitFirst_eq_append _ _ _ _ h1, ?_⟩
    have hocc : occursB placeholderStr t = false := by
      unfold occursB
      rw [h0]
      rfl
    unfold insert_custom_content
    rw [hocc]
    simp only [Bool.false_eq_true, if_false]
    rw [pyReplace_splitFirst_some bodyCloseTag (c ++ bodyCloseTag) (by decide) t a b h1,
      pyReplace_of_splitFirst_none bodyCloseTag (c ++ bodyCloseTag) b h2]
    simp [List.append_assoc]

/-- C2 witness: a template holding the placeholder once between `A` and `B`. -/
theorem insert_custom_content_splice_witness :
    insert_custom_content ('A' :: (placeholderStr ++ ['B'])) (("XY").toList) =
      'A' :: (("XY").toList ++ ['B']) := by
  have h := (insert_custom_content_splice ('A' :: (placeholderStr ++ ['B']))
    (("XY").toList) ['A'] ['B']).1 (by decide) (by decide)
  simpa using h.2

/-- C5: converting local `2024-07-16 09:30 AM` from the fixed Asia/Kolkata
zone (UTC+05:30) yields the UTC instant string
`2024-07-16T04:00:00.000000Z`. -/
theorem convert_to_utc_ist_example :
    convert_to_utc (("2024-07-16").toList) (("09:30").toList) (("AM").toList) =
      .ok (("2024-07-16T04:00:00.000000Z").toList) := by decide

/-- C6: the store read-by-date returns exactly the stored documents whose
`date` field is string-equal to the query date rendered as `YYYY-MM-DD`;
any other date string, even one denoting the same calendar date, is
excluded. -/
theorem fetch_articles_from_mongodb_exact (db : List StoredArticle) (d : PyDate)
    (a : StoredArticle) :
    a ∈ fetch_articles_from_mongodb db d ↔ a ∈ db ∧ a.date = formatYMD d := by
  unfold fetch_articles_from_mongodb
  simp [List.mem_filter]

/-- C7 (counterexample): `strptime("%Y-%m-%d")` also accepts a
single-digit month, so `2024-7-16` — not a valid `YYYY-MM-DD` string —
parses successfully, refuting "every other string makes the parser fail". -/
theorem parse_date_accepts_unpadded :
    parse_date (("2024-7-16").toList) = some ⟨2024, 7, 16⟩ ∧
    isValidYMD (("2024-7-16").toList) = false :=
  ⟨by decide, by decide⟩

/-- C7 (amended): every valid `YYYY-MM-DD` string parses to the date it
denotes (whose rendering is the string itself); the converse fails — the
parser also accepts strings with unpadded month or day, as the
counterexample shows, so only strings outside strptime's relaxed pattern
fail. -/
theorem parse_date_valid_string (s : List Char) (h : isValidYMD s = true) :
    ∃ pd : PyDate, parse_date s = some pd ∧ formatYMD pd = s := by
  obtain ⟨y, m, d, hmk, hfmt⟩ := isValidYMD_eq_format s h
  refine ⟨⟨y, m, d⟩, ?_, hfmt⟩
  rw [← hfmt]
  exact strptime_Ymd_format y m d hmk

/-- C7 witness at the concrete string `2024-07-16`. -/
theorem parse_date_valid_string_witness :
    ∃ pd : PyDate, parse_date (("2024-07-16").toList) = some pd ∧
      formatYMD pd = ("2024-07-16").toList :=
  parse_date_valid_string (("2024-07-16").toList) (by decide)

/-- C10: when the provider template contains neither the placeholder
paragraph nor any `</body>` substring, `insert_custom_content` returns the
template unchanged, and the schedule endpoint submits the campaign with
exactly the unmodified template HTML — the newsletter body is silently
dropped and no error is raised (the outcome is whatever the provider call
returns). -/
theorem schedule_newsletter_drops_body (templates : List (Nat × List Char))
    (preview : Nat → Except ExcVal (List Char)) (todayStr : List Char)
    (createCampaign : CampaignDraft → Except ExcVal (List Char))
    (subject : List Char) (data : ScheduleNewsletterData)
    (sel : Nat × List Char) (thtml utc : List Char)
    (h1 : templates.get? 1 = some sel)
    (h2 : preview sel.1 = .ok thtml)
    (h3 : splitFirst placeholderStr thtml = none)
    (h4 : splitFirst bodyCloseTag thtml = none)
    (h5 : convert_to_utc todayStr data.scheduled_time data.period_of_time = .ok utc) :
    insert_custom_content thtml data.body = thtml ∧
    schedule_newsletter_endpoint templates preview todayStr createCampaign subject data =
      wrapExcept (createCampaign
        ⟨subject, subject, data.sender_name, senderEmail, thtml, data.list_id, utc⟩) := by
  have hocc : occursB placeholderStr thtml = false := by
    unfold occursB
    rw [h3]
    rfl
  have hins : insert_custom_content thtml data.body = thtml := by
    unfold insert_custom_content
    rw [hocc]
    simp only [Bool.false_eq_true, if_false]
    exact pyReplace_of_splitFirst_none _ _ _ h4
  refine ⟨hins, ?_⟩
  unfold schedule_newsletter_endpoint schedule_newsletter_try
  simp only [h1, h2, h5, hins]

/-- C10 witness: two provider templates, the selected one `<div>x</div>`. -/
theorem schedule_newsletter_drops_body_witness :
    insert_custom_content (("<div>x</div>").toList) (("B").toList) =
      ("<div>x</div>").toList ∧
    schedule_newsletter_endpoint [(0, []), (7, [])]
      (fun _ => .ok (("<div>x</div>").toList)) (("2024-07-16").toList)
      (fun _ => .ok (("ok").toList)) (("subj").toList)
      ⟨("B").toList, 5, ("09:30").toList, ("AM").toList, ("S").toList⟩ =
      .ok (("ok").toList) := by
  have h := schedule_newsletter_drops_body [(0, []), (7, [])]
    (fun _ => .ok (("<div>x</div>").toList)) (("2024-07-16").toList)
    (fun _ => .ok (("ok").toList)) (("subj").toList)
    ⟨("B").toList, 5, ("09:30").toList, ("AM").toList, ("S").toList⟩
    (7, []) (("<div>x</div>").toList) (("2024-07-16T04:00:00.000000Z").toList)
    rfl rfl (by decide) (by decide) (by decide)
  exact ⟨h.1, by rw [h.2]; rfl⟩

/-- C3: response handling of the Summarizer: a trimmed response that is a
bare JSON object (it starts with `{` and ends with `}`) parsing as a
schema-conforming record is returned as-is with no repair; a response
with prose around a JSON object is parsed on the substring from the first
`{` to the last `}`; a response with no `{`/`}` pair fails with a
non-decode error (the `ValueError` string, not a decode failure). -/
theorem generate_summary_parse_modes (loads : List Char → Except (List Char) Summary)
    (r : List Char) (v : Summary) (i j : Nat) :
    (startsWithL [lbraceC] (pyStrip r) = true → endsWithL [rbraceC] (pyStrip r) = true →
      loads (pyStrip r) = .ok v → generate_summary loads (.ok r) = .ok v) ∧
    ((startsWithL [lbraceC] (pyStrip r) && endsWithL [rbraceC] (pyStrip r)) = false →
      pyFindChar lbraceC (pyStrip r) = some i → pyRfindChar rbraceC (pyStrip r) = some j →
      generate_summary loads (.ok r) = jsonAttempt loads (pySlice (pyStrip r) i (j + 1))) ∧
    ((pyFindChar lbraceC (pyStrip r) = none ∨ pyRfindChar rbraceC (pyStrip r) = none) →
      generate_summary loads (.ok r) = .error (.otherExc couldNotExtractMsg)) := by
  refine ⟨?_, ?_, ?_⟩
  · intro hs he hl
    simp only [generate_summary]
    rw [if_pos (show (startsWithL [lbraceC] (pyStrip r) &&
      endsWithL [rbraceC] (pyStrip r)) = true by rw [hs, he]; rfl)]
    simp only [jsonAttempt, hl]
  · intro hcond hi hj
    simp only [generate_summary]
    rw [if_neg (by simp [hcond])]
    simp only [hi, hj]
  · intro hno
    have hcond : (startsWithL [lbraceC] (pyStrip r) &&
        endsWithL [rbraceC] (pyStrip r)) = false := by
      rcases hno with hf | hf
      · have hsw : startsWithL [lbraceC] (pyStrip r) = false :=
          pyFindChar_none_head lbraceC (pyStrip r) hf
        rw [hsw]
        rfl
      · have hew : endsWithL [rbraceC] (pyStrip r) = false :=
          pyRfindChar_none_tail rbraceC (pyStrip r) hf
        rw [hew]
        simp
    simp only [generate_summary]
    rw [if_neg (by simp [hcond])]
    rcases hno with hf | hf
    · simp only [hf]
    · cases hfo : pyFindChar lbraceC (pyStrip r) with
      | none => simp only [hfo]
      | some i2 => simp only [hfo, hf]

/-- C3 witness: a bare three-character JSON object round-trips. -/
theorem generate_summary_parse_modes_witness :
    generate_summary (fun s => if s = wBraceX then .ok wSummary else .error [])
      (.ok wBraceX) = .ok wSummary :=
  (generate_summary_parse_modes (fun s => if s = wBraceX then .ok wSummary else .error [])
    wBraceX wSummary 0 0).1 (by decide) (by decide) (by decide)

/-- C4: whenever the Summarizer fails it produces exactly one of two
kinds: a decode failure whose detail is the cleaned (trimmed or repaired)
text that was passed to `json.loads` and on which `loads` failed, or an
other-exception failure whose detail is the exception's string form (the
model-call exception or the fixed `ValueError` message). -/
theorem generate_summary_failure_kinds (loads : List Char → Except (List Char) Summary)
    (resp : Except (List Char) (List Char)) (e : SummErr)
    (h : generate_summary loads resp = .error e) :
    (∃ c, e = .decodeFail c ∧ (∃ m, loads c = .error m) ∧
      (∃ t, resp = .ok t ∧
        (c = pyStrip t ∨ ∃ i j, pyFindChar lbraceC (pyStrip t) = some i ∧
          pyRfindChar rbraceC (pyStrip t) = some j ∧ c = pySlice (pyStrip t) i (j + 1)))) ∨
    (∃ m, e = .otherExc m ∧ (resp = .error m ∨ m = couldNotExtractMsg)) := by
  cases resp with
  | error m =>
    simp only [generate_summary, Except.error.injEq] at h
    subst h
    exact Or.inr ⟨m, rfl, Or.inl rfl⟩
  | ok t =>
    simp only [generate_summary] at h
    by_cases hcond : (startsWithL [lbraceC] (pyStrip t) &&
        endsWithL [rbraceC] (pyStrip t)) = true
    · rw [if_pos hcond] at h
      unfold jsonAttempt at h
      cases hl : loads (pyStrip t) with
      | ok v => rw [hl] at h; exact absurd h (by simp)
      | error m =>
        rw [hl] at h
        simp only [Except.error.injEq] at h
        subst h
        exact Or.inl ⟨pyStrip t, rfl, ⟨m, hl⟩, ⟨t, rfl, Or.inl rfl⟩⟩
    · rw [if_neg hcond] at h
      cases hfo : pyFindChar lbraceC (pyStrip t) with
      | none =>
        simp only [hfo, Except.error.injEq] at h
        subst h
        exact Or.inr ⟨couldNotExtractMsg, rfl, Or.inr rfl⟩
      | some i =>
        cases hjo : pyRfindChar rbraceC (pyStrip t) with
        | none =>
          simp only [hfo, hjo, Except.error.injEq] at h
          subst h
          exact Or.inr ⟨couldNotExtractMsg, rfl, Or.inr rfl⟩
        | some j =>
          simp only [hfo, hjo] at h
          unfold jsonAttempt at h
          cases hl : loads (pySlice (pyStrip t) i (j + 1)) with
          | ok v => rw [hl] at h; exact absurd h (by simp)
          | error m =>
            rw [hl] at h
            simp only [Except.error.injEq] at h
            subst h
            exact Or.inl ⟨pySlice (pyStrip t) i (j + 1), rfl, ⟨m, hl⟩,
              ⟨t, rfl, Or.inr ⟨i, j, hfo, hjo, rfl⟩⟩⟩

/-- C4 witness: a decode failure on a prose-wrapped object carries the
repaired brace-to-brace substring as its detail. -/
theorem generate_summary_failure_kinds_witness :
    (∃ c, SummErr.decodeFail wBraceX = .decodeFail c ∧
      (∃ m, (fun _ : List Char =>
        (Except.error (("bad").toList) : Except (List Char) Summary)) c = .error m) ∧
      (∃ t, (Except.ok wProse : Except (List Char) (List Char)) = .ok t ∧
        (c = pyStrip t ∨ ∃ i j, pyFindChar lbraceC (pyStrip t) = some i ∧
          pyRfindChar rbraceC (pyStrip t) = some j ∧ c = pySlice (pyStrip t) i (j + 1)))) ∨
    (∃ m, SummErr.decodeFail wBraceX = .otherExc m ∧
      ((Except.ok wProse : Except (List Char) (List Char)) = .error m ∨
        m = couldNotExtractMsg)) :=
  generate_summary_failure_kinds (fun _ => .error (("bad").toList)) (.ok wProse)
    (.decodeFail wBraceX) (by decide)

/-- A kept link was kept because its parsed date equals the requested one. -/
theorem processEntry_some_date (u : PyDate) (e : PageEntry) (l : PdfLink)
    (h : processEntry u e = .ok (some l)) : l.uploadDate = u := by
  simp only [processEntry] at h
  split at h
  · split at h
    · exact absurd h (by simp)
    · split at h
      · exact absurd h (by simp)
      · split at h
        · exact absurd h (by simp)
        · split at h
          · rename_i hud
            simp only [Except.ok.injEq, Option.some.injEq] at h
            subst h
            exact hud
          · exact absurd h (by simp)
  · exact absurd h (by simp)

/-- Every link of the collected `pdf_links` list is dated the requested day. -/
theorem collectPdfLinks_mem (u : PyDate) :
    ∀ (entries : List PageEntry) (links : List PdfLink),
      collectPdfLinks u entries = .ok links → ∀ l ∈ links, l.uploadDate = u := by
  intro entries
  induction entries with
  | nil =>
    intro links h l hl
    simp only [collectPdfLinks, Except.ok.injEq] at h
    subst h
    simp at hl
  | cons e rest ih =>
    intro links h l hl
    simp only [collectPdfLinks] at h
    split at h
    · exact absurd h (by simp)
    · exact ih links h l hl
    · rename_i l0 hproc
      split at h
      · exact absurd h (by simp)
      · rename_i ls hrest
        simp only [Except.ok.injEq] at h
        subst h
        rcases List.mem_cons.mp hl with hl0 | hls
        · subst hl0
          exact processEntry_some_date u e l hproc
        · exact ih ls hrest l hls

/-- C8: whenever the Fetcher's link collection succeeds, every kept link
has an adjacent parsed upload date equal to the requested date exactly
(a link dated one day off never appears), and the fetch result is built
from exactly those links. -/
theorem fetch_from_website_exact_date (download : List Char → Option (List Char))
    (tmpname : Nat → List Char) (entries : List PageEntry) (user_date : PyDate)
    (links : List PdfLink) (h : collectPdfLinks user_date entries = .ok links) :
    (∀ l ∈ links, l.uploadDate = user_date) ∧
    fetch_from_website download tmpname 200 entries user_date =
      .ok (buildFetched download tmpname links) := by
  refine ⟨collectPdfLinks_mem user_date entries links h, ?_⟩
  unfold fetch_from_website
  rw [if_pos rfl, h]

/-- C8 witness: of two links dated 16-07-2024 and 15-07-2024, requesting
2024-07-16 keeps exactly the first. -/
theorem fetch_from_website_exact_date_witness :
    (∀ l ∈ [wLinkA], l.uploadDate = (⟨2024, 7, 16⟩ : PyDate)) ∧
    fetch_from_website (fun _ => some []) (fun _ => ("tmp").toList) 200
      [wEntryA, wEntryB] ⟨2024, 7, 16⟩ =
      .ok (buildFetched (fun _ => some []) (fun _ => ("tmp").toList) [wLinkA]) :=
  fetch_from_website_exact_date (fun _ => some []) (fun _ => ("tmp").toList)
    [wEntryA, wEntryB] ⟨2024, 7, 16⟩ [wLinkA] (by decide)

/-- Concatenating pages that all extract to the empty string yields the
accumulator unchanged. -/
theorem foldl_append_all_nil (pages : List (List Char)) (h : ∀ p ∈ pages, p = []) :
    ∀ acc : List Char, pages.foldl (fun a t => a ++ t) acc = acc := by
  induction pages with
  | nil => intro acc; rfl
  | cons p ps ih =>
    intro acc
    have hp : p = [] := h p (by simp)
    simp only [List.foldl_cons, hp, List.append_nil]
    exact ih (fun q hq => h q (by simp [hq])) acc

/-- The extraction loop fails at the first document whose text is empty. -/
theorem fetch_pdfs_loop_first_empty (readPdf : List Char → Option (List (List Char))) :
    ∀ (pre : List (List Char × List Char)) (name path : List Char)
      (post : List (List Char × List Char)),
      (∀ np ∈ pre, ∃ tx, extract_text_from_pdf readPdf np.2 = some tx ∧ tx ≠ []) →
      extract_text_from_pdf readPdf path = some [] →
      fetch_pdfs_loop readPdf (pre ++ (name, path) :: post) =
        .error (.http 500 (failedExtractMsg name)) := by
  intro pre
  induction pre with
  | nil =>
    intro name path post _ hbad
    simp [fetch_pdfs_loop, hbad]
  | cons np pre ih =>
    intro name path post hpre hbad
    obtain ⟨tx, htx, htxne⟩ := hpre np (by simp)
    obtain ⟨n, p⟩ := np
    simp only [List.cons_append, fetch_pdfs_loop, htx]
    rw [if_neg htxne]
    simp only [List.append_eq]
    rw [ih name path post (fun x hx => hpre x (by simp [hx])) hbad]

/-- C9: when a successfully opened fetched document has only pages with no
extractable text (the concatenated text is empty), the fetch endpoint
responds 500 with a detail naming that file (wrapped once more by the
blanket `except Exception`), rather than returning a record with empty
text content. -/
theorem fetch_pdfs_empty_extraction_500 (download : List Char → Option (List Char))
    (tmpname : Nat → List Char) (entries : List PageEntry)
    (readPdf : List Char → Option (List (List Char))) (user_date : List Char)
    (pd : PyDate) (pre post : List (List Char × List Char)) (name path : List Char)
    (pages : List (List Char))
    (hparse : parse_date user_date = some pd)
    (hfetch : fetch_from_website download tmpname 200 entries pd =
      .ok (pre ++ (name, path) :: post))
    (hpre : ∀ np ∈ pre, ∃ tx, extract_text_from_pdf readPdf np.2 = some tx ∧ tx ≠ [])
    (hopen : readPdf path = some pages)
    (hempty : ∀ p ∈ pages, p = []) :
    fetch_pdfs_endpoint download tmpname 200 entries readPdf user_date =
      .error ⟨500, natToChars 500 ++ ':' :: ' ' :: failedExtractMsg name⟩ := by
  have hext : extract_text_from_pdf readPdf path = some [] := by
    simp only [extract_text_from_pdf, hopen]
    rw [foldl_append_all_nil pages hempty []]
  unfold fetch_pdfs_endpoint fetch_pdfs_try
  rw [hparse]
  simp only [hfetch]
  rw [fetch_pdfs_loop_first_empty readPdf pre name path post hpre hext]
  rfl

/-- C9 witness: one fetched document whose two pages are both empty. -/
theorem fetch_pdfs_empty_extraction_500_witness :
    fetch_pdfs_endpoint (fun _ => some []) (fun _ => ("tmp").toList) 200 [wEntryA]
      (fun _ => some [[], []]) (("2024-07-16").toList) =
      .error ⟨500, natToChars 500 ++ ':' :: ' ' ::
        failedExtractMsg (("1_Case A.pdf").toList)⟩ :=
  fetch_pdfs_empty_extraction_500 (fun _ => some []) (fun _ => ("tmp").toList)
    [wEntryA] (fun _ => some [[], []]) (("2024-07-16").toList) ⟨2024, 7, 16⟩
    [] [] (("1_Case A.pdf").toList) (("tmp").toList) [[], []]
    (by decide) (by decide) (by simp) (by decide) (by decide)

